import Mathlib

set_option maxRecDepth 100000

/-!
Verification of the client-side logic of the FinanceFlow dashboard
(static/js/main.js): feed fetching, ticker rendering, news-card rendering
and the single-flight question flow.

Modelling conventions (shallow embedding):
* JavaScript numbers that the code only formats with `toFixed(2)` and
  compares against 0 (`price`, `change`, `percent_change`) are represented
  as integers in hundredths, so `toFixed(2)` becomes the exact decimal
  rendering `toFixed2`.
* `impact_score` is an integer; the JS truthiness test `x || d` on it is
  false exactly for an absent field or the number 0.
* Optional / possibly-missing JS fields are `Option` values; a present but
  empty string is `some ""` (falsy in JS, like an absent field).
* The stock mapping is an association list in the server's emission order,
  matching `Object.keys` enumeration order.
* `Date(published).toLocaleString(...)` is a deterministic function of the
  published string supplied by the host environment; it is passed to the
  renderers as an explicit formatter argument `fmt`.
* The DOM surface and module state are one record `AppState`; each
  function of main.js becomes a state transformer.  Network activity is
  modelled by an outcome value describing what the transport returned and
  a count of requests actually issued.
-/

/-- A stock quote as delivered in the feed payload.  Numeric fields are in
hundredths (see module header). -/
structure StockQuote where
  symbol : String
  price : Int
  change : Int
  percent_change : Int
  deriving DecidableEq, Repr

/-- The optional AI analysis attached to a news item; every field may be
absent, and strings may be present but empty. -/
structure Analysis where
  sentiment : Option String
  impact_score : Option Int
  summary_th : Option String
  summary_en : Option String
  deriving DecidableEq, Repr

/-- A news item from the feed payload. -/
structure NewsItem where
  source : String
  title : String
  link : String
  published : String
  analysis : Option Analysis
  deriving DecidableEq, Repr

/-- Module-scoped state of main.js: the two session-state slots, the busy
flag, and the DOM surface the script reads and writes. -/
structure AppState where
  newsData : List NewsItem
  stockData : List (String × StockQuote)
  isAsking : Bool
  stockBarHTML : String
  newsHTML : String
  qaInputValue : String
  qaButtonDisabled : Bool
  qaButtonText : String
  qaAnswerText : String
  qaAnswerOpacity : String
  deriving DecidableEq, Repr

/-- `x.toFixed(2)` for a value stored in hundredths. -/
def toFixed2 (x : Int) : String :=
  let n := x.natAbs
  (if x < 0 then "-" else "")
    ++ toString (n / 100) ++ "."
    ++ (if n % 100 < 10 then "0" else "") ++ toString (n % 100)

/-- main.js line 97: `const changeClass = stock.change >= 0 ? 'positive' : 'negative'`. -/
def changeClass (stock : StockQuote) : String :=
  if stock.change ≥ 0 then "positive" else "negative"

/-- main.js line 98: `const sign = stock.change >= 0 ? '+' : ''`. -/
def sign (stock : StockQuote) : String :=
  if stock.change ≥ 0 then "+" else ""

/-- The per-quote template literal of main.js lines 99-107. -/
def quoteHTML (stock : StockQuote) : String :=
  "\n            <div class=\"stock-box\">\n                <span class=\"symbol\">"
    ++ stock.symbol
    ++ "</span>\n                <span class=\"price\">"
    ++ toFixed2 stock.price
    ++ "</span>\n                <span class=\"change "
    ++ changeClass stock
    ++ "\">\n                    "
    ++ sign stock
    ++ toFixed2 stock.change
    ++ " ("
    ++ sign stock
    ++ toFixed2 stock.percent_change
    ++ "%)\n                </span>\n            </div>\n        "

/-- Everything of `quoteHTML` that precedes the sign slot of the
percent-change field (main.js line 104, up to and including `" ("`). -/
def quoteHead (stock : StockQuote) : String :=
  "\n            <div class=\"stock-box\">\n                <span class=\"symbol\">"
    ++ stock.symbol
    ++ "</span>\n                <span class=\"price\">"
    ++ toFixed2 stock.price
    ++ "</span>\n                <span class=\"change "
    ++ changeClass stock
    ++ "\">\n                    "
    ++ sign stock
    ++ toFixed2 stock.change
    ++ " ("

/-- Everything of `quoteHTML` that precedes the `changeClass` slot of the
change span (main.js line 103, up to `class="change `). -/
def quoteOpen (stock : StockQuote) : String :=
  "\n            <div class=\"stock-box\">\n                <span class=\"symbol\">"
    ++ stock.symbol
    ++ "</span>\n                <span class=\"price\">"
    ++ toFixed2 stock.price
    ++ "</span>\n                <span class=\"change "

/-- `stockSymbols.map(...).join('')` of main.js lines 95-108: the
concatenated per-quote markup, one fragment per entry of the mapping, in
enumeration order, each built from the entry's quote value. -/
def stockHTMLOf (stocks : List (String × StockQuote)) : String :=
  String.join (stocks.map fun p => quoteHTML p.2)

/-- main.js `renderStockBar` (lines 88-112): empty mapping renders the
fetching placeholder; otherwise the joined quote markup is duplicated
inside the ticker wrapper. -/
def renderStockBar (s : AppState) : AppState :=
  if s.stockData.isEmpty then
    { s with stockBarHTML := "<div class=\"stock-box\">Fetching stock data...</div>" }
  else
    { s with stockBarHTML :=
        "<div class=\"stock-ticker-inner\">"
          ++ stockHTMLOf s.stockData ++ stockHTMLOf s.stockData ++ "</div>" }

/-- JavaScript `a || b` for an optional string `a`: the default is taken
when the field is absent or present but empty (both falsy). -/
def jsOrStr (v : Option String) (d : String) : String :=
  match v with
  | none => d
  | some s => if s = "" then d else s

/-- JavaScript `analysis.impact_score || 'N/A'` followed by template
stringification: the default is taken when the field is absent or is the
(falsy) number 0. -/
def impactText (v : Option Int) : String :=
  match v with
  | none => "N/A"
  | some n => if n = 0 then "N/A" else toString n

/-- main.js line 124: `const analysis = item.analysis || {}`. -/
def analysisOf (item : NewsItem) : Analysis :=
  item.analysis.getD { sentiment := none, impact_score := none,
                       summary_th := none, summary_en := none }

/-- main.js line 125: `const sentiment = analysis.sentiment || 'Neutral'`. -/
def sentimentOf (item : NewsItem) : String :=
  jsOrStr (analysisOf item).sentiment "Neutral"

/-- main.js line 126: `const impact_score = analysis.impact_score || 'N/A'`. -/
def impactOf (item : NewsItem) : String :=
  impactText (analysisOf item).impact_score

/-- main.js line 127:
`const summary = analysis.summary_th || analysis.summary_en || 'Summary not available.'`. -/
def summaryOf (item : NewsItem) : String :=
  jsOrStr (analysisOf item).summary_th
    (jsOrStr (analysisOf item).summary_en "Summary not available.")

/-- The story-card template literal of main.js lines 132-146, with the
three resolved analysis values as parameters; `fmt` is the host's
`toLocaleString` date formatter (deterministic in the published string). -/
def cardHTML (fmt : String → String) (item : NewsItem)
    (sentiment impact summary : String) : String :=
  "\n        <div class=\"story-card\">\n            <header class=\"card-header\">\n                <span class=\"card-source\">"
    ++ item.source
    ++ "</span>\n                <time datetime=\""
    ++ item.published
    ++ "\">"
    ++ fmt item.published
    ++ "</time>\n            </header>\n            <h2 class=\"card-title\">"
    ++ item.title
    ++ "</h2>\n            <p class=\"card-summary\">"
    ++ summary
    ++ "</p>\n            <footer class=\"card-footer\">\n                <div class=\"sentiment-badge sentiment-"
    ++ sentiment
    ++ "\">"
    ++ sentiment
    ++ "</div>\n                <div class=\"impact-score\">Impact: "
    ++ impact
    ++ "/10</div>\n                <a href=\""
    ++ item.link
    ++ "\" target=\"_blank\" rel=\"noopener noreferrer\" class=\"source-link\">Read Source →</a>\n            </footer>\n        </div>\n    "

/-- main.js `renderNewsCard` (lines 122-147): resolve the analysis fields
with their defaults, then fill the card template. -/
def renderNewsCard (fmt : String → String) (item : NewsItem) : String :=
  cardHTML fmt item (sentimentOf item) (impactOf item) (summaryOf item)

/-- The error-screen template literal of main.js lines 150-155. -/
def errorHTML (message : String) : String :=
  "\n        <div class=\"error-screen\">\n            <h2>Something went wrong</h2>\n            <p>"
    ++ message
    ++ "</p>\n        </div>\n    "

/-- main.js `renderError` (lines 149-156): writes the error screen into the
news container; nothing else changes. -/
def renderError (message : String) (s : AppState) : AppState :=
  { s with newsHTML := errorHTML message }

/-- The empty-feed message of main.js line 116. -/
def noNewsMessage : String :=
  "No news available at the moment. The worker might be processing data in the background."

/-- main.js `renderNewsFeed` (lines 114-120). -/
def renderNewsFeed (fmt : String → String) (s : AppState) : AppState :=
  if s.newsData.isEmpty then
    renderError noNewsMessage s
  else
    { s with newsHTML := String.join (s.newsData.map (renderNewsCard fmt)) }

/-- main.js `renderAll` (lines 83-86). -/
def renderAll (fmt : String → String) (s : AppState) : AppState :=
  renderNewsFeed fmt (renderStockBar s)

/-- What the transport returned for the feed request: the fetch itself
threw, the response was non-OK (main.js line 31 then throws, caught below),
`response.json()` threw, or a parsed envelope with a status, an optional
message and an optional data payload (`data` absent models a malformed
success envelope, whose field access throws inside the try block). -/
inductive FetchOutcome where
  | netError
  | httpError
  | jsonError
  | envelope (status : String) (message : Option String)
      (data : Option (List NewsItem × List (String × StockQuote)))
  deriving DecidableEq

/-- Whether the outcome is a parsed envelope with `status === 'success'`. -/
def isSuccessEnvelope : FetchOutcome → Bool
  | .envelope status _ _ => status = "success"
  | _ => false

/-- The message the error view shows for a failed feed fetch: the generic
connectivity text for any transport-level failure, else the envelope's
message when present and non-empty (`result.message || '...'` is a JS
truthiness test, so an empty message also falls back), else
"Failed to load data.". -/
def failureMessage : FetchOutcome → String
  | .envelope _ message _ => jsOrStr message "Failed to load data."
  | _ => "Could not connect to the server. Please try again later."

/-- main.js `fetchMainFeed` (lines 28-46) as a state transformer given the
transport outcome.  Any throw inside the try block (network, non-OK
response, JSON parse, or field access on a malformed success envelope)
lands in the catch, which renders the generic connectivity message. -/
def fetchMainFeed (fmt : String → String) (o : FetchOutcome) (s : AppState) : AppState :=
  match o with
  | .netError => renderError "Could not connect to the server. Please try again later." s
  | .httpError => renderError "Could not connect to the server. Please try again later." s
  | .jsonError => renderError "Could not connect to the server. Please try again later." s
  | .envelope status message data =>
    if status = "success" then
      match data with
      | some d => renderAll fmt { s with newsData := d.1, stockData := d.2 }
      | none => renderError "Could not connect to the server. Please try again later." s
    else
      renderError (jsOrStr message "Failed to load data.") s

/-- What the transport returned for the question request: a parsed
envelope (status, optional answer, optional message), or a throw during
fetch or JSON parsing. -/
inductive AskOutcome where
  | reply (status : String) (answer : Option String) (message : Option String)
  | thrown
  deriving DecidableEq

/-- `String.prototype.trim`, modelled executably: drop whitespace from
both ends of the character list. -/
def jsTrim (s : String) : String :=
  ⟨((s.data.dropWhile Char.isWhitespace).reverse.dropWhile Char.isWhitespace).reverse⟩

/-- main.js lines 49-56: the guard `if (!question || isAsking) return;`
followed by the busy-state setup.  Returns `none` when the call is
rejected, otherwise the state after the setup writes. -/
def askStart (s : AppState) : Option AppState :=
  if jsTrim s.qaInputValue = "" ∨ s.isAsking = true then
    none
  else
    some { s with isAsking := true, qaButtonDisabled := true,
                  qaButtonText := "Thinking...",
                  qaAnswerOpacity := "0.5",
                  qaAnswerText := "AI is processing your question..." }

/-- main.js lines 58-79: the try/catch on the response followed by the
`finally` block, which runs on every exit path. -/
def askFinish (o : AskOutcome) (s : AppState) : AppState :=
  let s2 := match o with
    | .reply status answer message =>
      if status = "success" then
        { s with qaAnswerText := answer.getD "undefined" }
      else
        { s with qaAnswerText := "Error: " ++ message.getD "undefined" }
    | .thrown =>
      { s with qaAnswerText := "Sorry, an error occurred while asking the AI." }
  { s2 with isAsking := false, qaButtonDisabled := false,
            qaButtonText := "Ask AI", qaAnswerOpacity := "1",
            qaInputValue := "" }

/-- main.js `handleAskQuestion` (lines 48-80) given the transport outcome;
the second component counts the network requests issued by the call. -/
def handleAskQuestion (o : AskOutcome) (s : AppState) : AppState × Nat :=
  match askStart s with
  | none => (s, 0)
  | some s1 => (askFinish o s1, 1)

/-- The page state right after startup: empty session slots, idle question
flow, the ask control carrying its original label. -/
def baseState : AppState :=
  { newsData := [], stockData := [], isAsking := false, stockBarHTML := "",
    newsHTML := "", qaInputValue := "", qaButtonDisabled := false,
    qaButtonText := "Ask AI", qaAnswerText := "", qaAnswerOpacity := "1" }

/-- A news item whose enrichment has not arrived yet. -/
def demoItem : NewsItem :=
  { source := "Reuters", title := "Markets steady", link := "https://example.com/a",
    published := "2025-02-14T10:30:00Z", analysis := none }

/-- A news item whose analysis is present but carries falsy field values. -/
def demoItem2 : NewsItem :=
  { source := "Bloomberg", title := "Flat session", link := "https://example.com/b",
    published := "2025-02-14T11:00:00Z",
    analysis := some { sentiment := some "", impact_score := some 0,
                       summary_th := none, summary_en := none } }

/-- A state with one stock quote and no news, as after a feed fetch that
returned stocks but an empty news list. -/
def demoFeedState : AppState :=
  { baseState with stockData := [("AOT", { symbol := "AOT", price := 6025, change := -75, percent_change := -123 })] }

/-- A state with a pending question typed into the input. -/
def askDemoState : AppState :=
  { baseState with qaInputValue := "Q" }

/-- The state `askStart` produces from `askDemoState`. -/
def askDemoMid : AppState :=
  { askDemoState with isAsking := true, qaButtonDisabled := true,
                      qaButtonText := "Thinking...",
                      qaAnswerOpacity := "0.5",
                      qaAnswerText := "AI is processing your question..." }

/-- Claim C1, amended (see the counterexample): for every stock quote, the
sign slot rendered before the percent-change value is the same `sign`
computed from `change >= 0`, inherited from the absolute change field; it
is "+" exactly when `change >= 0`, regardless of the sign of
`percent_change`. -/
theorem quoteHTML_percent_sign_from_change (stock : StockQuote) :
    quoteHTML stock
      = quoteHead stock ++ sign stock ++ toFixed2 stock.percent_change
          ++ "%)\n                </span>\n            </div>\n        "
    ∧ (sign stock = "+" ↔ stock.change ≥ 0)
    ∧ (sign stock = "" ↔ ¬ stock.change ≥ 0) := by
  refine ⟨rfl, ?_, ?_⟩ <;> unfold sign <;> split <;> simp_all

/-- Claim C1 as stated is false: the quote with change +1.00 and
percent-change -0.50 renders the percent-change value with prefix "+"
(the fragment reads `(+-0.50%)`) even though `percent_change < 0`, so the
prefix is not computed from the comparison `percent_change >= 0`. -/
theorem quoteHTML_percent_sign_cex :
    quoteHTML { symbol := "XYZ", price := 1000, change := 100, percent_change := -50 }
      = quoteHead { symbol := "XYZ", price := 1000, change := 100, percent_change := -50 }
          ++ "+" ++ "-0.50"
          ++ "%)\n                </span>\n            </div>\n        "
    ∧ sign { symbol := "XYZ", price := 1000, change := 100, percent_change := -50 } = "+"
    ∧ ({ symbol := "XYZ", price := 1000, change := 100, percent_change := -50 } : StockQuote).percent_change < 0 := by
  refine ⟨?_, by decide, by decide⟩
  decide

/-- Claim C2: a quote with `change >= 0` renders the change field with an
explicit "+" prefix and class "positive"; a quote with `change < 0`
renders no explicit prefix (the numeric text itself starts with "-") and
class "negative"; the boundary `change = 0` is positive. -/
theorem change_sign_and_class (stock : StockQuote) :
    quoteHTML stock
      = quoteOpen stock ++ changeClass stock ++ "\">\n                    "
          ++ sign stock ++ toFixed2 stock.change
          ++ " (" ++ sign stock ++ toFixed2 stock.percent_change
          ++ "%)\n                </span>\n            </div>\n        "
    ∧ (stock.change ≥ 0 → sign stock = "+" ∧ changeClass stock = "positive")
    ∧ (stock.change < 0 → sign stock = ""
        ∧ changeClass stock = "negative"
        ∧ ∃ r, toFixed2 stock.change = "-" ++ r)
    ∧ (stock.change = 0 → sign stock = "+" ∧ changeClass stock = "positive") := by
  refine ⟨rfl, ?_, ?_, ?_⟩
  · intro h
    constructor <;> simp [sign, changeClass, h]
  · intro h
    have hn : ¬ stock.change ≥ 0 := by omega
    refine ⟨by simp [sign, hn], by simp [changeClass, hn], ?_⟩
    have h2 : toFixed2 stock.change
        = "-" ++ (toString (stock.change.natAbs / 100) ++ "."
            ++ (if stock.change.natAbs % 100 < 10 then "0" else "")
            ++ toString (stock.change.natAbs % 100)) := by
      simp [toFixed2, h, String.append_assoc]
    exact ⟨_, h2⟩
  · intro h
    constructor <;> simp [sign, changeClass, h]

theorem change_sign_and_class_witness :
    (0 : Int) ≥ 0
    ∧ sign { symbol := "PTT", price := 3550, change := 0, percent_change := 0 } = "+"
    ∧ changeClass { symbol := "PTT", price := 3550, change := 0, percent_change := 0 } = "positive" :=
  ⟨by decide,
   (change_sign_and_class { symbol := "PTT", price := 3550, change := 0, percent_change := 0 }).2.1 (by decide)⟩

theorem join_cons (a : String) (l : List String) :
    String.join (a :: l) = a ++ String.join l := by
  apply String.ext
  simp

theorem stockHTMLOf_ne_empty (l : List (String × StockQuote)) (h : l ≠ []) :
    stockHTMLOf l ≠ "" := by
  rcases l with _ | ⟨q, rest⟩
  · exact absurd rfl h
  · rw [stockHTMLOf, List.map_cons, join_cons]
    intro hc
    have hd := congrArg String.data hc
    simp [quoteHTML, String.data_append] at hd

theorem stockBarHTML_of_ne (s : AppState) (h : s.stockData ≠ []) :
    (renderStockBar s).stockBarHTML
      = "<div class=\"stock-ticker-inner\">"
          ++ stockHTMLOf s.stockData ++ stockHTMLOf s.stockData ++ "</div>" := by
  rcases hsd : s.stockData with _ | ⟨q, rest⟩
  · exact absurd hsd h
  · simp [renderStockBar, hsd]

theorem renderStockBar_frame (s : AppState) :
    (renderStockBar s).newsData = s.newsData
    ∧ (renderStockBar s).stockData = s.stockData
    ∧ (renderStockBar s).newsHTML = s.newsHTML := by
  unfold renderStockBar
  split <;> exact ⟨rfl, rfl, rfl⟩

theorem renderNewsFeed_frame (fmt : String → String) (s : AppState) :
    (renderNewsFeed fmt s).newsData = s.newsData
    ∧ (renderNewsFeed fmt s).stockData = s.stockData
    ∧ (renderNewsFeed fmt s).stockBarHTML = s.stockBarHTML := by
  unfold renderNewsFeed renderError
  split <;> exact ⟨rfl, rfl, rfl⟩

theorem renderStockBar_html_congr (s t : AppState) (h : s.stockData = t.stockData) :
    (renderStockBar s).stockBarHTML = (renderStockBar t).stockBarHTML := by
  unfold renderStockBar
  rw [h]
  split <;> rfl

theorem renderNewsFeed_html_congr (fmt : String → String) (s t : AppState)
    (h : s.newsData = t.newsData) :
    (renderNewsFeed fmt s).newsHTML = (renderNewsFeed fmt t).newsHTML := by
  unfold renderNewsFeed renderError
  rw [h]
  split <;> rfl

theorem askStart_isAsking (s s1 : AppState) (h : askStart s = some s1) :
    s1.isAsking = true := by
  unfold askStart at h
  split at h
  · exact Option.noConfusion h
  · injection h with h2
    rw [← h2]

/-- Claim C3: for a non-empty stock mapping, the ticker fragment is the
wrapper around two back-to-back, byte-for-byte identical copies of the
concatenated per-quote markup, and that copy is itself non-empty. -/
theorem renderStockBar_duplicated (s : AppState) (h : s.stockData ≠ []) :
    (renderStockBar s).stockBarHTML
      = "<div class=\"stock-ticker-inner\">"
          ++ stockHTMLOf s.stockData ++ stockHTMLOf s.stockData ++ "</div>"
    ∧ stockHTMLOf s.stockData ≠ "" :=
  ⟨stockBarHTML_of_ne s h, stockHTMLOf_ne_empty s.stockData h⟩

theorem renderStockBar_duplicated_witness :
    (renderStockBar demoFeedState).stockBarHTML
      = "<div class=\"stock-ticker-inner\">"
          ++ stockHTMLOf demoFeedState.stockData
          ++ stockHTMLOf demoFeedState.stockData ++ "</div>"
    ∧ stockHTMLOf demoFeedState.stockData ≠ "" :=
  renderStockBar_duplicated demoFeedState (by decide)

/-- Claim C4: a news item without an analysis object renders with
sentiment "Neutral", impact "N/A" and the literal fallback summary (the
renderer is total, so no missing-field failure is possible); in general a
missing or empty sentiment falls back to "Neutral", a missing impact score
to "N/A", and the summary resolves to the first non-empty of the Thai
summary, the English summary and the literal fallback. -/
theorem renderNewsCard_defaults (fmt : String → String) (item : NewsItem) :
    (item.analysis = none →
      sentimentOf item = "Neutral"
      ∧ impactOf item = "N/A"
      ∧ summaryOf item = "Summary not available."
      ∧ renderNewsCard fmt item
          = cardHTML fmt item "Neutral" "N/A" "Summary not available.")
    ∧ (∀ a, item.analysis = some a →
        ((a.sentiment = none ∨ a.sentiment = some "") → sentimentOf item = "Neutral")
        ∧ (a.impact_score = none → impactOf item = "N/A")
        ∧ (∀ t, a.summary_th = some t → t ≠ "" → summaryOf item = t)
        ∧ ((a.summary_th = none ∨ a.summary_th = some "") →
            ∀ e, a.summary_en = some e → e ≠ "" → summaryOf item = e)
        ∧ ((a.summary_th = none ∨ a.summary_th = some "") →
            (a.summary_en = none ∨ a.summary_en = some "") →
            summaryOf item = "Summary not available.")) := by
  constructor
  · intro h
    refine ⟨?_, ?_, ?_, ?_⟩ <;>
      simp [sentimentOf, impactOf, summaryOf, analysisOf, jsOrStr, impactText,
            renderNewsCard, h]
  · intro a ha
    refine ⟨?_, ?_, ?_, ?_, ?_⟩
    · rintro (h1 | h1) <;> simp [sentimentOf, analysisOf, jsOrStr, ha, h1]
    · intro h1
      simp [impactOf, analysisOf, impactText, ha, h1]
    · intro t ht htne
      simp [summaryOf, analysisOf, jsOrStr, ha, ht, htne]
    · rintro (h1 | h1) e he hene <;>
        simp [summaryOf, analysisOf, jsOrStr, ha, h1, he, hene]
    · rintro (h1 | h1) (h2 | h2) <;>
        simp [summaryOf, analysisOf, jsOrStr, ha, h1, h2]

theorem renderNewsCard_defaults_witness :
    sentimentOf demoItem = "Neutral"
    ∧ impactOf demoItem = "N/A"
    ∧ summaryOf demoItem = "Summary not available."
    ∧ renderNewsCard (fun p => p) demoItem
        = cardHTML (fun p => p) demoItem "Neutral" "N/A" "Summary not available." :=
  (renderNewsCard_defaults (fun p => p) demoItem).1 rfl

/-- Claim C10: the default substitution of the card renderer triggers on
any falsy value, not only absent fields: a present impact score equal to 0
renders as "N/A", and a present empty-string sentiment as "Neutral". -/
theorem falsy_analysis_fields_default (item : NewsItem) (a : Analysis)
    (h : item.analysis = some a) :
    (a.impact_score = some 0 → impactOf item = "N/A")
    ∧ (a.sentiment = some "" → sentimentOf item = "Neutral") := by
  constructor
  · intro h1
    simp [impactOf, analysisOf, impactText, h, h1]
  · intro h1
    simp [sentimentOf, analysisOf, jsOrStr, h, h1]

theorem falsy_analysis_fields_default_witness :
    impactOf demoItem2 = "N/A" ∧ sentimentOf demoItem2 = "Neutral" :=
  ⟨(falsy_analysis_fields_default demoItem2 _ rfl).1 rfl,
   (falsy_analysis_fields_default demoItem2 _ rfl).2 rfl⟩

/-- Claim C5: a question-flow call whose trimmed question is empty or that
arrives while the busy flag is set is a no-op with no network request; in
particular, a second submission fired while a request is in flight leaves
the in-flight state untouched and issues no request, so the interleaving
of two submissions issues exactly one request and ends in the state the
first call alone would produce. -/
theorem handleAskQuestion_guard (s : AppState) (o o2 : AskOutcome) :
    ((jsTrim s.qaInputValue = "" ∨ s.isAsking = true) →
      handleAskQuestion o s = (s, 0))
    ∧ (∀ s1, askStart s = some s1 →
        handleAskQuestion o2 s1 = (s1, 0)
        ∧ handleAskQuestion o s = (askFinish o s1, 1)) := by
  constructor
  · intro h
    have hn : askStart s = none := by
      rcases h with h | h <;> simp [askStart, h]
    simp [handleAskQuestion, hn]
  · intro s1 h1
    have hs1 : askStart s1 = none := by
      simp [askStart, askStart_isAsking s s1 h1]
    exact ⟨by simp [handleAskQuestion, hs1], by simp [handleAskQuestion, h1]⟩

theorem handleAskQuestion_guard_witness :
    handleAskQuestion .thrown { baseState with qaInputValue := "   " }
      = ({ baseState with qaInputValue := "   " }, 0) :=
  (handleAskQuestion_guard { baseState with qaInputValue := "   " } .thrown .thrown).1
    (Or.inl (by decide))

/-- Claim C6: every accepted question-flow call, whatever the transport
outcome (success envelope, non-success envelope, or a thrown
transport/parse error), passes through the finalization exactly once: it
ends in the `askFinish` state, with the busy flag false, the trigger
control enabled, its label restored to "Ask AI", the answer-area opacity
restored to 1, and the input cleared, after exactly one request. -/
theorem handleAskQuestion_finalizes (s s1 : AppState) (o : AskOutcome)
    (h : askStart s = some s1) :
    handleAskQuestion o s = (askFinish o s1, 1)
    ∧ (handleAskQuestion o s).1.isAsking = false
    ∧ (handleAskQuestion o s).1.qaButtonDisabled = false
    ∧ (handleAskQuestion o s).1.qaButtonText = "Ask AI"
    ∧ (handleAskQuestion o s).1.qaAnswerOpacity = "1"
    ∧ (handleAskQuestion o s).1.qaInputValue = "" := by
  have he : handleAskQuestion o s = (askFinish o s1, 1) := by
    simp [handleAskQuestion, h]
  refine ⟨he, ?_, ?_, ?_, ?_, ?_⟩ <;> rw [he] <;> rfl

theorem handleAskQuestion_finalizes_witness :
    handleAskQuestion .thrown askDemoState = (askFinish .thrown askDemoMid, 1)
    ∧ (handleAskQuestion .thrown askDemoState).1.isAsking = false
    ∧ (handleAskQuestion .thrown askDemoState).1.qaButtonDisabled = false
    ∧ (handleAskQuestion .thrown askDemoState).1.qaButtonText = "Ask AI"
    ∧ (handleAskQuestion .thrown askDemoState).1.qaAnswerOpacity = "1"
    ∧ (handleAskQuestion .thrown askDemoState).1.qaInputValue = "" :=
  handleAskQuestion_finalizes askDemoState askDemoMid .thrown (by decide)

/-- Claim C7, amended (see the counterexample): on every feed-fetch
outcome that is not a success envelope — transport failure (network
error, non-OK HTTP status, JSON parse error) or an envelope whose status
is not "success" — the news and stock session slots are left exactly as
they were, and the news container shows the error view carrying the
generic connectivity message for transport failures, else the envelope
message if present and non-empty, else "Failed to load data.". -/
theorem fetchMainFeed_failure (fmt : String → String) (o : FetchOutcome)
    (s : AppState) (h : isSuccessEnvelope o = false) :
    fetchMainFeed fmt o s = renderError (failureMessage o) s
    ∧ (fetchMainFeed fmt o s).newsData = s.newsData
    ∧ (fetchMainFeed fmt o s).stockData = s.stockData
    ∧ (fetchMainFeed fmt o s).newsHTML = errorHTML (failureMessage o) := by
  have he : fetchMainFeed fmt o s = renderError (failureMessage o) s := by
    cases o with
    | netError => rfl
    | httpError => rfl
    | jsonError => rfl
    | envelope st msg d =>
      have hne : ¬ st = "success" := of_decide_eq_false h
      simp [fetchMainFeed, failureMessage, hne]
  refine ⟨he, ?_, ?_, ?_⟩ <;> rw [he] <;> rfl

theorem fetchMainFeed_failure_witness :
    fetchMainFeed (fun p => p) (.envelope "error" (some "boom") none) baseState
      = renderError "boom" baseState
    ∧ (fetchMainFeed (fun p => p) (.envelope "error" (some "boom") none) baseState).newsData
        = baseState.newsData
    ∧ (fetchMainFeed (fun p => p) (.envelope "error" (some "boom") none) baseState).stockData
        = baseState.stockData :=
  have h := fetchMainFeed_failure (fun p => p) (.envelope "error" (some "boom") none)
    baseState (by decide)
  ⟨h.1, h.2.1, h.2.2.1⟩

/-- Claim C7 as stated is false at a present-but-empty message: a reported
failure whose envelope carries `message = ""` (present, since
`result.message || '...'` tests truthiness, not presence) renders the
error view with the default "Failed to load data.", not the envelope's
message. -/
theorem fetchMainFeed_empty_message_cex :
    fetchMainFeed (fun p => p) (.envelope "error" (some "") none) baseState
      = renderError "Failed to load data." baseState
    ∧ (some "" : Option String).isSome = true
    ∧ "Failed to load data." ≠ "" := by
  refine ⟨?_, rfl, by decide⟩
  decide

/-- Claim C8: when the news sequence is empty, the full render populates
the news container with the shared error-view fragment carrying the
specific no-news / background-processing message, while the ticker is
still rendered from the stock mapping (the duplicated quote markup when
the mapping is non-empty); the renderers are total functions, so no
exception arises. -/
theorem renderAll_empty_news (fmt : String → String) (s : AppState)
    (h : s.newsData = []) :
    (renderAll fmt s).newsHTML = errorHTML noNewsMessage
    ∧ (renderAll fmt s).stockBarHTML = (renderStockBar s).stockBarHTML
    ∧ (s.stockData ≠ [] →
        (renderAll fmt s).stockBarHTML
          = "<div class=\"stock-ticker-inner\">"
              ++ stockHTMLOf s.stockData ++ stockHTMLOf s.stockData ++ "</div>") := by
  have hb : (renderAll fmt s).stockBarHTML = (renderStockBar s).stockBarHTML :=
    (renderNewsFeed_frame fmt (renderStockBar s)).2.2
  refine ⟨?_, hb, ?_⟩
  · have h2 : (renderStockBar s).newsData = [] := (renderStockBar_frame s).1.trans h
    unfold renderAll
    simp [renderNewsFeed, renderError, h2]
  · intro hne
    exact hb.trans (stockBarHTML_of_ne s hne)

theorem renderAll_empty_news_witness :
    (renderAll (fun p => p) demoFeedState).newsHTML = errorHTML noNewsMessage
    ∧ (renderAll (fun p => p) demoFeedState).stockBarHTML
        = "<div class=\"stock-ticker-inner\">"
            ++ stockHTMLOf demoFeedState.stockData
            ++ stockHTMLOf demoFeedState.stockData ++ "</div>" :=
  have h := renderAll_empty_news (fun p => p) demoFeedState rfl
  ⟨h.1, h.2.2 (by decide)⟩

/-- Claim C9: rendering is deterministic and idempotent — re-running the
full render on an already rendered state reproduces exactly the same
state, and the two output fragments depend on nothing but the news
sequence and the stock mapping (together with each item's own published
field, through the fixed formatter): two states agreeing on those slots
render byte-identical fragments. -/
theorem renderAll_idempotent (fmt : String → String) (s t : AppState) :
    renderAll fmt (renderAll fmt s) = renderAll fmt s
    ∧ (s.newsData = t.newsData → s.stockData = t.stockData →
        (renderAll fmt s).newsHTML = (renderAll fmt t).newsHTML
        ∧ (renderAll fmt s).stockBarHTML = (renderAll fmt t).stockBarHTML) := by
  constructor
  · obtain ⟨nd, sd, ia, sb, nh, qi, qd, qt, qa, qo⟩ := s
    by_cases hnd : nd = [] <;> by_cases hsd : sd = [] <;>
      simp [renderAll, renderNewsFeed, renderStockBar, renderError, hnd, hsd]
  · intro hn hs
    constructor
    · have h1 : (renderAll fmt s).newsHTML
          = (renderNewsFeed fmt (renderStockBar s)).newsHTML := rfl
      have h2 : (renderAll fmt t).newsHTML
          = (renderNewsFeed fmt (renderStockBar t)).newsHTML := rfl
      rw [h1, h2]
      exact renderNewsFeed_html_congr fmt _ _
        (((renderStockBar_frame s).1.trans hn).trans (renderStockBar_frame t).1.symm)
    · have h1 : (renderAll fmt s).stockBarHTML = (renderStockBar s).stockBarHTML :=
        (renderNewsFeed_frame fmt (renderStockBar s)).2.2
      have h2 : (renderAll fmt t).stockBarHTML = (renderStockBar t).stockBarHTML :=
        (renderNewsFeed_frame fmt (renderStockBar t)).2.2
      rw [h1, h2]
      exact renderStockBar_html_congr s t hs

theorem renderAll_idempotent_witness :
    renderAll (fun p => p) (renderAll (fun p => p) demoFeedState)
      = renderAll (fun p => p) demoFeedState
    ∧ (renderAll (fun p => p) demoFeedState).newsHTML
        = (renderAll (fun p => p) { demoFeedState with newsHTML := "stale", qaInputValue := "zz" }).newsHTML :=
  have h := renderAll_idempotent (fun p => p) demoFeedState
    { demoFeedState with newsHTML := "stale", qaInputValue := "zz" }
  ⟨h.1, (h.2 rfl rfl).1⟩
